import Mathlib

/-
  A shallow embedding of the PTL thread-pool core
  (src/source/ThreadPool.cc) together with proofs about its lifecycle
  operations, the worker run loop and the thread registry.

  Machine integers are modelled as Nat (sizes, indices) and Int (signed
  index hints); fallible operations return Except; thread identities are
  modelled as Nat.  Lists model the std vectors and deques, with
  push_back as append at the tail.
-/

namespace PTL

abbrev ThreadId := Nat

namespace thread_pool

namespace state

/-- Modelled from the spec: numeric value of the pool-state enum member
NONINIT.  The header declaring namespace thread_pool::state is not among
the provided sources; the spec fixes the total order
NONINIT < STARTED < PARTIAL < STOPPED with NONINIT numerically zero. -/
def NONINIT : Nat := 0

/-- Modelled from the spec: numeric value of STARTED (see NONINIT). -/
def STARTED : Nat := 1

/-- Modelled from the spec: numeric value of PARTIAL, the single-thread
stoppage state (see NONINIT).  Named PARTIAL_STOP here. -/
def PARTIAL_STOP : Nat := 2

/-- Modelled from the spec: numeric value of STOPPED (see NONINIT). -/
def STOPPED : Nat := 3

end state

end thread_pool

/-- The mutable fields of class ThreadPool that the lifecycle operations
in ThreadPool.cc read or write, plus the process-wide registry
f_thread_ids (a static member, carried as a field so that state passing
stays explicit). -/
structure PoolSt where
  m_alive_flag : Bool
  m_pool_state : Nat
  m_pool_size : Nat
  m_main_threads : List ThreadId
  m_is_joined : List Bool
  m_is_stopped : List Bool
  m_stop_threads : List ThreadId
  m_unique_threads : List ThreadId
  m_thread_awake : Int
  f_thread_ids : List (ThreadId × Nat)
  deriving Repr, DecidableEq

/-- Lookup in the thread-id map, std::map find (keyed association list). -/
def lookupId (ids : List (ThreadId × Nat)) (tid : ThreadId) : Option Nat :=
  (ids.find? (fun p => p.1 == tid)).map (fun p => p.2)

/-- Insert-or-overwrite in the thread-id map, the subscript assignment
f_thread_ids[tid] = idx. -/
def mapInsert : List (ThreadId × Nat) → ThreadId → Nat → List (ThreadId × Nat)
  | [], tid, v => [(tid, v)]
  | (k, x) :: rest, tid, v =>
      if k = tid then (tid, v) :: rest else (k, x) :: mapInsert rest tid v

/-- Erase the entry for tid if present, std::map erase after a find. -/
def mapErase : List (ThreadId × Nat) → ThreadId → List (ThreadId × Nat)
  | [], _ => []
  | (k, x) :: rest, tid => if k = tid then rest else (k, x) :: mapErase rest tid

/-- ThreadPool::GetThisThreadID (ThreadPool.cc lines 104 to 119): under
the type mutex, if the calling thread is absent from f_thread_ids it is
assigned the current map size as its index and inserted; the stored index
is returned. -/
def GetThisThreadID (ids : List (ThreadId × Nat)) (tid : ThreadId) :
    Nat × List (ThreadId × Nat) :=
  match lookupId ids tid with
  | some idx => (idx, ids)
  | none => (ids.length, ids ++ [(tid, ids.length)])

/-- The registry part of ThreadPool::start_thread (lines 76 to 88): a
worker entering with an index hint below zero is assigned the current map
size, otherwise the hint, and the entry is stored under its thread id. -/
def start_thread_register (ids : List (ThreadId × Nat)) (tid : ThreadId)
    (hint : Int) : List (ThreadId × Nat) :=
  let idx : Nat := if hint < 0 then ids.length else hint.toNat
  mapInsert ids tid idx

/-- Result of one evaluation of the leave_pool lambda: the leave decision,
the two shared lists it may mutate, and whether task_mutex is owned on
return. -/
structure LeaveResult where
  leave : Bool
  m_is_stopped : List Bool
  m_stop_threads : List ThreadId
  lockOwned : Bool
  deriving Repr, DecidableEq

/-- The leave_pool lambda of execute_thread (lines 521 to 547).  lockOwned
is whether the caller already owns task_mutex; the branch for the partial
state acquires it, and on the acknowledge path returns with it still
owned, otherwise releases it. -/
def leave_pool (ps : Nat) (tokens : List Bool) (acks : List ThreadId)
    (tid : ThreadId) (lockOwned : Bool) : LeaveResult :=
  if 0 < ps then
    if ps = thread_pool.state.STOPPED then ⟨true, tokens, acks, lockOwned⟩
    else if ps = thread_pool.state.PARTIAL_STOP then
      if tokens.isEmpty = false ∧ tokens.getLastD false = true then
        ⟨true, tokens.dropLast, acks ++ [tid], true⟩
      else ⟨false, tokens, acks, false⟩
    else ⟨false, tokens, acks, lockOwned⟩
  else ⟨false, tokens, acks, lockOwned⟩

/-- The _wake lambda of the wait loop (line 560): queue not empty, or
true_size positive, or the numeric pool state positive. -/
def wake (emptyObs : Bool) (tsizeObs : Nat) (pstate : Nat) : Bool :=
  !emptyObs || decide (0 < tsizeObs) || decide (0 < pstate)

/-- Control points of the worker run loop (execute_thread lines 514 to
625).  waitCond is the while-empty test; waitTop the leave check inside
the wait body; blocked is sleeping on task_cv; afterWait the leave check
after returning from the wait; preDrain the leave check after the wait
loop; draining the inner execution loop over the queue. -/
inductive WCtl where
  | waitCond
  | waitTop
  | blocked
  | afterWait
  | preDrain
  | draining
  | exited
  deriving Repr, DecidableEq

/-- Result of one worker-loop step: the next control point, the two shared
lists, and whether the step performed a GetTask dequeue. -/
structure WStepRes where
  ctl : WCtl
  m_is_stopped : List Bool
  m_stop_threads : List ThreadId
  dequeued : Bool
  deriving Repr, DecidableEq

/-- One step of the worker run loop from a given control point,
parameterized by the observations the step makes (emptyObs for
queue.empty, tsizeObs for queue.true_size) and the shared fields it reads
(pool state, stop tokens, acknowledge list). -/
def workerStep (ps : Nat) (tokens : List Bool) (acks : List ThreadId)
    (tid : ThreadId) (emptyObs : Bool) (tsizeObs : Nat) : WCtl → WStepRes
  | WCtl.waitCond =>
      if emptyObs then ⟨WCtl.waitTop, tokens, acks, false⟩
      else ⟨WCtl.preDrain, tokens, acks, false⟩
  | WCtl.waitTop =>
      let r := leave_pool ps tokens acks tid false
      if r.leave then ⟨WCtl.exited, r.m_is_stopped, r.m_stop_threads, false⟩
      else if tsizeObs = 0 then ⟨WCtl.blocked, r.m_is_stopped, r.m_stop_threads, false⟩
      else ⟨WCtl.preDrain, r.m_is_stopped, r.m_stop_threads, false⟩
  | WCtl.blocked =>
      if wake emptyObs tsizeObs ps then ⟨WCtl.afterWait, tokens, acks, false⟩
      else ⟨WCtl.blocked, tokens, acks, false⟩
  | WCtl.afterWait =>
      let r := leave_pool ps tokens acks tid true
      if r.leave then ⟨WCtl.exited, r.m_is_stopped, r.m_stop_threads, false⟩
      else ⟨WCtl.waitCond, r.m_is_stopped, r.m_stop_threads, false⟩
  | WCtl.preDrain =>
      let r := leave_pool ps tokens acks tid false
      if r.leave then ⟨WCtl.exited, r.m_is_stopped, r.m_stop_threads, false⟩
      else ⟨WCtl.draining, r.m_is_stopped, r.m_stop_threads, false⟩
  | WCtl.draining =>
      if emptyObs then ⟨WCtl.waitCond, tokens, acks, false⟩
      else ⟨WCtl.draining, tokens, acks, true⟩
  | WCtl.exited => ⟨WCtl.exited, tokens, acks, false⟩

/-- A task as the worker loop sees it: an identifier plus the optional
group handle returned by the group query. -/
structure Task where
  id : Nat
  group : Option Nat
  deriving Repr, DecidableEq

/-- Observable effects of executing the shared task block. -/
inductive TaskEffect where
  | invoked (t : Task)
  | destroyed (t : Task)
  deriving Repr, DecidableEq

/-- One execution of the task block shared by the dummy run (lines 503 to
509) and the drain loop (lines 612 to 618): if GetTask produced a task,
invoke it, then delete it exactly when it has no group. -/
def runTaskBlock : Option Task → List TaskEffect
  | none => []
  | some t =>
      TaskEffect.invoked t ::
        (if t.group.isNone then [TaskEffect.destroyed t] else [])

/-- The bootstrap dummy run (lines 500 to 511): a single non-blocking
GetTask followed by the shared task block. -/
def dummy_run (t? : Option Task) : List TaskEffect :=
  runTaskBlock t?

/-- The drain loop (lines 610 to 619): while the queue is non-empty,
GetTask (which may race and yield nothing) and run the shared block.  The
queue is modelled as the list of successive GetTask outcomes. -/
def drain_loop : List (Option Task) → List TaskEffect
  | [] => []
  | t? :: rest => runTaskBlock t? ++ drain_loop rest

/-- Remove the first occurrence of tid, the erase-on-match scan of
stop_thread (lines 459 to 466). -/
def removeFirst : List ThreadId → ThreadId → List ThreadId
  | [], _ => []
  | x :: xs, t => if x = t then xs else x :: removeFirst xs t

/-- The drain loop of stop_thread (lines 453 to 469): pop each
acknowledged thread id from the front, erase it from the main-thread list
and pop one entry off the back of the joined list. -/
def drain_acks : List ThreadId → List ThreadId → List Bool →
    List ThreadId × List Bool
  | [], mains, joined => (mains, joined)
  | t :: rest, mains, joined => drain_acks rest (removeFirst mains t) joined.dropLast

/-- ThreadPool::stop_thread (lines 436 to 473): early out when not alive
or empty, else post one stop token (and notify one waiter), drain the
acknowledge list under the task mutex, resync m_pool_size to the
main-thread count and return it. -/
def stop_thread (st : PoolSt) : Nat × PoolSt :=
  if st.m_alive_flag = false ∨ st.m_pool_size = 0 then (0, st)
  else
    let st1 := { st with m_is_stopped := st.m_is_stopped ++ [true] }
    let md := drain_acks st1.m_stop_threads st1.m_main_threads st1.m_is_joined
    let st2 := { st1 with
                 m_stop_threads := []
                 m_main_threads := md.1
                 m_is_joined := md.2
                 m_pool_size := md.1.length }
    (md.1.length, st2)

/-- ThreadPool::destroy_threadpool (lines 358 to 432).  It stores STOPPED
and notifies before checking the alive flag; the TBB block is compiled
out.  A size mismatch between the joined list and the thread list throws;
otherwise the worker ids are erased from the registry, all workers are
joined, the three worker lists are cleared and the alive flag dropped. -/
def destroy_threadpool (st : PoolSt) : Except String (Nat × PoolSt) :=
  let st0 := { st with m_pool_state := thread_pool.state.STOPPED }
  if st0.m_alive_flag = false then Except.ok (0, st0)
  else if st0.m_is_joined.length ≠ st0.m_main_threads.length then
    Except.error "ThreadPool::destroy_thread_pool - boolean is_joined vector is a different size than threads vector"
  else
    let ids := st0.m_main_threads.foldl mapErase st0.f_thread_ids
    Except.ok (0, { st0 with
                    f_thread_ids := ids
                    m_main_threads := []
                    m_is_joined := []
                    m_unique_threads := []
                    m_alive_flag := false })

/-- The pre-spawn updates of initialize_threadpool (lines 204 and 265):
store STARTED when not alive, then mark alive. -/
def init_pre (st : PoolSt) : PoolSt :=
  let st1 :=
    if st.m_alive_flag = false then
      { st with m_pool_state := thread_pool.state.STARTED }
    else st
  { st1 with m_alive_flag := true }

/-- The spawn loop of initialize_threadpool (lines 301 to 331): each
iteration either fails (logged, loop continues) or yields a new thread
whose id is recorded in the three worker lists while m_pool_size grows. -/
def spawn_loop : PoolSt → List (Option ThreadId) → PoolSt
  | st, [] => st
  | st, none :: rest => spawn_loop st rest
  | st, some tid :: rest =>
      spawn_loop { st with
                   m_pool_size := st.m_pool_size + 1
                   m_main_threads := st.m_main_threads ++ [tid]
                   m_is_joined := st.m_is_joined ++ [false]
                   m_unique_threads := st.m_unique_threads ++ [tid] } rest

/-- The spawn phase: GetThisThreadID for the caller (line 300) followed by
the spawn loop, one iteration per missing worker; spawnRes gives the
per-iteration outcome of the Thread constructor. -/
def init_spawn (st : PoolSt) (callerTid : ThreadId) (proposed : Nat)
    (spawnRes : Nat → Option ThreadId) : PoolSt :=
  let g := GetThisThreadID st.f_thread_ids callerTid
  let st1 := { st with f_thread_ids := g.2 }
  spawn_loop st1 ((List.range (proposed - st1.m_pool_size)).map spawnRes)

/-- The shrink branch of initialize_threadpool (line 273), repeating
stop_thread while its return stays above the proposed size.  The C++ loop
is unbounded; fuel bounds the iteration count here. -/
def shrink_loop (proposed : Nat) : Nat → PoolSt → PoolSt
  | 0, st => st
  | fuel + 1, st =>
      let r := stop_thread st
      if proposed < r.1 then shrink_loop proposed fuel r.2 else r.2

/-- ThreadPool::initialize_threadpool (lines 194 to 354), TBB compiled
out: early out below one, pre-spawn state stores, the shrink and
equal-size branches when STARTED, else the spawn phase followed by the
size-invariant check which throws on mismatch. -/
def initialize_threadpool (st : PoolSt) (callerTid : ThreadId)
    (proposed : Nat) (spawnRes : Nat → Option ThreadId) (fuel : Nat) :
    Except String (Nat × PoolSt) :=
  if proposed < 1 then Except.ok (0, st)
  else
    let st2 := init_pre st
    if st2.m_pool_state = thread_pool.state.STARTED ∧ proposed < st2.m_pool_size then
      let st3 := shrink_loop proposed fuel st2
      Except.ok (st3.m_pool_size, st3)
    else if st2.m_pool_state = thread_pool.state.STARTED ∧ st2.m_pool_size = proposed then
      Except.ok (st2.m_pool_size, st2)
    else
      let st3 := init_spawn st2 callerTid proposed spawnRes
      if st3.m_is_joined.length ≠ st3.m_main_threads.length then
        Except.error "ThreadPool::initialize_threadpool - boolean is_joined vector is a different size than threads vector"
      else Except.ok (st3.m_main_threads.length, st3)

/-- A system configuration: the shared pool state plus each worker thread
id and control point. -/
structure SysSt where
  pool : PoolSt
  workers : List (ThreadId × WCtl)
  deriving Repr, DecidableEq

/-- Apply one worker-loop step to the shared pool state. -/
def workerApply (p : PoolSt) (tid : ThreadId) (e : Bool) (n : Nat)
    (c : WCtl) : PoolSt × WCtl :=
  let r := workerStep p.m_pool_state p.m_is_stopped p.m_stop_threads tid e n c
  ({ p with m_is_stopped := r.m_is_stopped, m_stop_threads := r.m_stop_threads }, r.ctl)

/-- Interleaving of master stop_thread calls with worker-loop steps under
arbitrary queue observations; no initialize and no destroy runs. -/
inductive SysStep : SysSt → SysSt → Prop
  | master_stop (s : SysSt) :
      SysStep s ⟨(stop_thread s.pool).2, s.workers⟩
  | worker (s : SysSt) (i : Nat) (tid : ThreadId) (c : WCtl) (e : Bool) (n : Nat)
      (h : s.workers.get? i = some (tid, c)) :
      SysStep s ⟨(workerApply s.pool tid e n c).1,
                 s.workers.set i (tid, (workerApply s.pool tid e n c).2)⟩

/-- Invariant for runs that start from a STARTED pool with no pending
acknowledgements and a consistent size field. -/
def StartedInv (s : SysSt) : Prop :=
  s.pool.m_pool_state = thread_pool.state.STARTED ∧
  s.pool.m_stop_threads = [] ∧
  s.pool.m_pool_size = s.pool.m_main_threads.length

/-- A live three-worker pool in the STARTED state with no pending stop
activity, used as the concrete input of several witnesses. -/
def exPool : PoolSt :=
  { m_alive_flag := true
    m_pool_state := thread_pool.state.STARTED
    m_pool_size := 3
    m_main_threads := [11, 12, 13]
    m_is_joined := [false, false, false]
    m_is_stopped := []
    m_stop_threads := []
    m_unique_threads := [11, 12, 13]
    m_thread_awake := 3
    f_thread_ids := [(0, 0), (11, 1), (12, 2), (13, 3)] }

/-- A pool that was never started: not alive, NONINIT, empty lists. -/
def deadPool : PoolSt :=
  { m_alive_flag := false
    m_pool_state := thread_pool.state.NONINIT
    m_pool_size := 0
    m_main_threads := []
    m_is_joined := []
    m_is_stopped := []
    m_stop_threads := []
    m_unique_threads := []
    m_thread_awake := 0
    f_thread_ids := [(0, 0)] }

/-- A live single-worker pool holding one pending acknowledgement from
thread 7 in m_stop_threads. -/
def ackPool : PoolSt :=
  { m_alive_flag := true
    m_pool_state := thread_pool.state.PARTIAL_STOP
    m_pool_size := 1
    m_main_threads := [5]
    m_is_joined := [false]
    m_is_stopped := []
    m_stop_threads := [7]
    m_unique_threads := [5]
    m_thread_awake := 0
    f_thread_ids := [(0, 0), (5, 1)] }

/-- Three workers of exPool at assorted control points. -/
def exWorkers : List (ThreadId × WCtl) :=
  [(11, WCtl.waitCond), (12, WCtl.blocked), (13, WCtl.draining)]

/-- The system configuration pairing exPool with exWorkers. -/
def exSys : SysSt := ⟨exPool, exWorkers⟩

/-- Spawn oracle that always succeeds, handing out fresh ids. -/
def exSpawn : Nat → Option ThreadId := fun i => some (100 + i)

/- Helper lemmas shared by the claim theorems. -/

lemma leave_pool_stopped (tokens : List Bool) (acks : List ThreadId)
    (tid : ThreadId) (lo : Bool) :
    leave_pool thread_pool.state.STOPPED tokens acks tid lo
      = ⟨true, tokens, acks, lo⟩ := by
  rfl

lemma leave_pool_frame_of_ne (ps : Nat) (tokens : List Bool)
    (acks : List ThreadId) (tid : ThreadId) (lo : Bool)
    (h : ps ≠ thread_pool.state.PARTIAL_STOP) :
    (leave_pool ps tokens acks tid lo).m_is_stopped = tokens ∧
    (leave_pool ps tokens acks tid lo).m_stop_threads = acks := by
  unfold leave_pool
  split_ifs <;> simp_all

lemma workerStep_frame_of_ne (ps : Nat) (tokens : List Bool)
    (acks : List ThreadId) (tid : ThreadId) (e : Bool) (n : Nat) (c : WCtl)
    (h : ps ≠ thread_pool.state.PARTIAL_STOP) :
    (workerStep ps tokens acks tid e n c).m_is_stopped = tokens ∧
    (workerStep ps tokens acks tid e n c).m_stop_threads = acks := by
  obtain ⟨hf1, hf2⟩ := leave_pool_frame_of_ne ps tokens acks tid false h
  obtain ⟨ht1, ht2⟩ := leave_pool_frame_of_ne ps tokens acks tid true h
  cases c <;> simp only [workerStep] <;> (try split_ifs) <;> simp_all

lemma stop_thread_noacks (st : PoolSt) (h2 : st.m_stop_threads = [])
    (h3 : st.m_pool_size = st.m_main_threads.length) :
    (stop_thread st).2.m_pool_state = st.m_pool_state ∧
    (stop_thread st).2.m_stop_threads = [] ∧
    (stop_thread st).2.m_pool_size = st.m_pool_size ∧
    (stop_thread st).2.m_main_threads = st.m_main_threads := by
  unfold stop_thread
  split_ifs with hc
  · exact ⟨rfl, h2, rfl, rfl⟩
  · simp [h2, drain_acks, h3]

lemma sysStep_preserves (s s' : SysSt) (hs : SysStep s s')
    (h : StartedInv s) :
    StartedInv s' ∧ s'.pool.m_pool_size = s.pool.m_pool_size := by
  obtain ⟨h1, h2, h3⟩ := h
  cases hs with
  | master_stop =>
      obtain ⟨k1, k2, k3, k4⟩ := stop_thread_noacks s.pool h2 h3
      refine ⟨⟨?_, k2, ?_⟩, k3⟩
      · rw [k1, h1]
      · rw [k3, h3, k4]
  | worker i tid c e n hget =>
      have hne : s.pool.m_pool_state ≠ thread_pool.state.PARTIAL_STOP := by
        rw [h1]; decide
      obtain ⟨w1, w2⟩ := workerStep_frame_of_ne s.pool.m_pool_state
        s.pool.m_is_stopped s.pool.m_stop_threads tid e n c hne
      refine ⟨⟨?_, ?_, ?_⟩, rfl⟩
      · simpa [workerApply] using h1
      · simp only [workerApply]
        simpa [w2] using h2
      · simpa [workerApply] using h3

/- Claim theorems. -/

/-- C1: once the pool state reads STOPPED, a worker evaluating any of the
three leave-pool check sites of its run loop (inside the wait body, after
the condition wait, and before the drain loop) steps directly to the
exited point, performing no task dequeue and leaving the stop-token lists
untouched; the exited point is absorbing.  Hence no worker that observes
STOPPED continues running or dequeues again. -/
theorem observes_stopped_exits :
    ∀ (tokens : List Bool) (acks : List ThreadId) (tid : ThreadId)
      (e : Bool) (n : Nat),
      workerStep thread_pool.state.STOPPED tokens acks tid e n WCtl.waitTop
        = ⟨WCtl.exited, tokens, acks, false⟩ ∧
      workerStep thread_pool.state.STOPPED tokens acks tid e n WCtl.afterWait
        = ⟨WCtl.exited, tokens, acks, false⟩ ∧
      workerStep thread_pool.state.STOPPED tokens acks tid e n WCtl.preDrain
        = ⟨WCtl.exited, tokens, acks, false⟩ ∧
      workerStep thread_pool.state.STOPPED tokens acks tid e n WCtl.exited
        = ⟨WCtl.exited, tokens, acks, false⟩ := by
  intro tokens acks tid e n
  refine ⟨?_, ?_, ?_, rfl⟩ <;>
    simp [workerStep, leave_pool_stopped]

/-- C4: in the wait discipline of the worker loop, the wait body is
entered exactly when the queue reported empty; the worker blocks on the
condition variable exactly when the leave check declined and true_size
observed zero; and the wait predicate accepts a wake exactly when the
queue is non-empty, or true_size is positive, or the numeric pool state is
positive. -/
theorem wait_discipline :
    (∀ (ps : Nat) (tokens : List Bool) (acks : List ThreadId)
       (tid : ThreadId) (e : Bool) (n : Nat),
       (workerStep ps tokens acks tid e n WCtl.waitCond).ctl = WCtl.waitTop
         ↔ e = true) ∧
    (∀ (ps : Nat) (tokens : List Bool) (acks : List ThreadId)
       (tid : ThreadId) (e : Bool) (n : Nat),
       (workerStep ps tokens acks tid e n WCtl.waitTop).ctl = WCtl.blocked
         ↔ ((leave_pool ps tokens acks tid false).leave = false ∧ n = 0)) ∧
    (∀ (e : Bool) (n ps : Nat),
       wake e n ps = true ↔ (e = false ∨ 0 < n ∨ 0 < ps)) := by
  refine ⟨?_, ?_, ?_⟩
  · intro ps tokens acks tid e n
    cases e <;> simp [workerStep]
  · intro ps tokens acks tid e n
    simp only [workerStep]
    split_ifs with hl hn <;> simp_all
  · intro e n ps
    cases e <;> simp [wake]

/-- C5: the leave check taken while the pool state reads PARTIAL: with the
stop-token list non-empty and its tail token true, the worker appends its
own thread id to the acknowledge list, pops the token off the back, keeps
the task mutex and leaves; otherwise it leaves both lists alone, releases
the mutex and continues. -/
theorem leave_pool_partial_branch :
    (∀ (tokens : List Bool) (acks : List ThreadId) (tid : ThreadId)
       (lo : Bool),
       tokens.isEmpty = false → tokens.getLastD false = true →
       leave_pool thread_pool.state.PARTIAL_STOP tokens acks tid lo
         = ⟨true, tokens.dropLast, acks ++ [tid], true⟩) ∧
    (∀ (tokens : List Bool) (acks : List ThreadId) (tid : ThreadId)
       (lo : Bool),
       tokens.isEmpty = true ∨ tokens.getLastD false = false →
       leave_pool thread_pool.state.PARTIAL_STOP tokens acks tid lo
         = ⟨false, tokens, acks, false⟩) := by
  have hred : ∀ (tokens : List Bool) (acks : List ThreadId) (tid : ThreadId)
      (lo : Bool),
      leave_pool thread_pool.state.PARTIAL_STOP tokens acks tid lo
        = if tokens.isEmpty = false ∧ tokens.getLastD false = true then
            ⟨true, tokens.dropLast, acks ++ [tid], true⟩
          else ⟨false, tokens, acks, false⟩ := by
    intro tokens acks tid lo
    rfl
  constructor
  · intro tokens acks tid lo hne hlast
    rw [hred, if_pos ⟨hne, hlast⟩]
  · intro tokens acks tid lo hcase
    rw [hred]
    rcases hcase with hemp | hlast
    · exact if_neg (fun hc => by rw [hemp] at hc; exact Bool.true_eq_false.mp hc.1)
    · exact if_neg (fun hc => by rw [hlast] at hc; exact Bool.false_eq_true.mp hc.2)

/-- Witness for C5 at concrete inputs: one pending true token is
acknowledged by thread 7; with no token the check declines. -/
theorem leave_pool_partial_branch_witness :
    leave_pool thread_pool.state.PARTIAL_STOP [true] [] 7 false
      = ⟨true, [], [7], true⟩ ∧
    leave_pool thread_pool.state.PARTIAL_STOP [] [5] 7 false
      = ⟨false, [], [5], false⟩ :=
  ⟨leave_pool_partial_branch.1 [true] [] 7 false rfl rfl,
   leave_pool_partial_branch.2 [] [5] 7 false (Or.inl rfl)⟩

/-- C10: stop_thread never modifies the pool state (so it never stores
PARTIAL); the leave check mutates the stop-token or acknowledge lists only
when the pool state reads PARTIAL; and stop_thread on a pool that is not
alive or has size zero returns zero and changes nothing. -/
theorem stop_one_frame :
    (∀ st : PoolSt, (stop_thread st).2.m_pool_state = st.m_pool_state) ∧
    (∀ (ps : Nat) (tokens : List Bool) (acks : List ThreadId)
       (tid : ThreadId) (lo : Bool),
       ps ≠ thread_pool.state.PARTIAL_STOP →
       (leave_pool ps tokens acks tid lo).m_is_stopped = tokens ∧
       (leave_pool ps tokens acks tid lo).m_stop_threads = acks) ∧
    (∀ st : PoolSt, st.m_alive_flag = false ∨ st.m_pool_size = 0 →
       stop_thread st = (0, st)) := by
  refine ⟨?_, ?_, ?_⟩
  · intro st
    unfold stop_thread
    split_ifs <;> rfl
  · intro ps tokens acks tid lo h
    exact leave_pool_frame_of_ne ps tokens acks tid lo h
  · intro st h
    unfold stop_thread
    rw [if_pos h]

/-- Witness for C10 at concrete inputs: the leave check at STARTED leaves
the lists alone, and stop_thread on the dead pool is the identity. -/
theorem stop_one_frame_witness :
    ((leave_pool thread_pool.state.STARTED [true] [] 5 false).m_is_stopped
        = [true] ∧
     (leave_pool thread_pool.state.STARTED [true] [] 5 false).m_stop_threads
        = []) ∧
    stop_thread deadPool = (0, deadPool) :=
  ⟨stop_one_frame.2.1 thread_pool.state.STARTED [true] [] 5 false (by decide),
   stop_one_frame.2.2 deadPool (Or.inl rfl)⟩

lemma runTaskBlock_destroyed_iff (t? : Option Task) (t : Task) :
    TaskEffect.destroyed t ∈ runTaskBlock t? ↔
      (TaskEffect.invoked t ∈ runTaskBlock t? ∧ t.group = none) := by
  cases t? with
  | none => simp [runTaskBlock]
  | some u =>
      rcases hq : u.group with _ | g
      · simp [runTaskBlock, hq]
        rintro rfl
        exact hq
      · simp [runTaskBlock, hq]
        rintro rfl h
        rw [h] at hq
        exact Option.noConfusion hq

lemma drain_loop_destroyed_iff (q : List (Option Task)) (t : Task) :
    TaskEffect.destroyed t ∈ drain_loop q ↔
      (TaskEffect.invoked t ∈ drain_loop q ∧ t.group = none) := by
  induction q with
  | nil => simp [drain_loop]
  | cons hd rest ih =>
      simp only [drain_loop, List.mem_append]
      rw [runTaskBlock_destroyed_iff, ih]
      tauto

/-- C6: at both task-execution sites of the worker loop (the bootstrap
dummy run and the main drain loop) a task is destroyed exactly when it was
invoked there and belongs to no group; the shared task block invokes
first and destroys after, and a task with a group is only invoked. -/
theorem task_disposal_iff_no_group :
    (∀ (t? : Option Task) (t : Task),
       TaskEffect.destroyed t ∈ dummy_run t? ↔
         (TaskEffect.invoked t ∈ dummy_run t? ∧ t.group = none)) ∧
    (∀ (q : List (Option Task)) (t : Task),
       TaskEffect.destroyed t ∈ drain_loop q ↔
         (TaskEffect.invoked t ∈ drain_loop q ∧ t.group = none)) ∧
    (∀ t : Task, t.group = none →
       runTaskBlock (some t) = [TaskEffect.invoked t, TaskEffect.destroyed t]) ∧
    (∀ t : Task, t.group ≠ none →
       runTaskBlock (some t) = [TaskEffect.invoked t]) := by
  refine ⟨fun t? t => runTaskBlock_destroyed_iff t? t,
          fun q t => drain_loop_destroyed_iff q t, ?_, ?_⟩
  · intro t hg
    simp [runTaskBlock, hg]
  · intro t hg
    rcases hq : t.group with _ | g
    · exact absurd hq hg
    · simp [runTaskBlock, hq]

/-- Witness for C6 at concrete tasks: a groupless task is invoked then
destroyed, a grouped task is only invoked. -/
theorem task_disposal_iff_no_group_witness :
    runTaskBlock (some ⟨1, none⟩)
      = [TaskEffect.invoked ⟨1, none⟩, TaskEffect.destroyed ⟨1, none⟩] ∧
    runTaskBlock (some ⟨2, some 4⟩) = [TaskEffect.invoked ⟨2, some 4⟩] :=
  ⟨task_disposal_iff_no_group.2.2.1 ⟨1, none⟩ rfl,
   task_disposal_iff_no_group.2.2.2 ⟨2, some 4⟩ (by decide)⟩

/-- C7: initialize raises its fatal size-mismatch error after the spawn
loop exactly when the joined list and the thread list differ in length
there, and destroy raises the same fatal error exactly when the two
lengths differ at its validation step; when the sizes match neither
raises. -/
theorem fatal_iff_size_mismatch :
    (∀ (st : PoolSt) (ctid : ThreadId) (proposed : Nat)
       (spawnRes : Nat → Option ThreadId) (fuel : Nat),
       1 ≤ proposed →
       ((init_pre st).m_pool_state = thread_pool.state.STARTED →
         (init_pre st).m_pool_size < proposed) →
       ((∃ msg, initialize_threadpool st ctid proposed spawnRes fuel
            = Except.error msg) ↔
         (init_spawn (init_pre st) ctid proposed spawnRes).m_is_joined.length ≠
           (init_spawn (init_pre st) ctid proposed spawnRes).m_main_threads.length)) ∧
    (∀ st : PoolSt, st.m_alive_flag = true →
       ((∃ msg, destroy_threadpool st = Except.error msg) ↔
         st.m_is_joined.length ≠ st.m_main_threads.length)) := by
  constructor
  · intro st ctid proposed spawnRes fuel h1 h2
    have hA : ¬((init_pre st).m_pool_state = thread_pool.state.STARTED ∧
        proposed < (init_pre st).m_pool_size) := by
      rintro ⟨hs, hlt⟩
      have := h2 hs
      omega
    have hB : ¬((init_pre st).m_pool_state = thread_pool.state.STARTED ∧
        (init_pre st).m_pool_size = proposed) := by
      rintro ⟨hs, heq⟩
      have := h2 hs
      omega
    simp only [initialize_threadpool]
    rw [if_neg (show ¬proposed < 1 by omega), if_neg hA, if_neg hB]
    split_ifs with hm
    · exact ⟨fun _ => hm, fun _ => ⟨_, rfl⟩⟩
    · constructor
      · rintro ⟨msg, hmsg⟩
        exact hmsg.elim
      · intro hne
        exact absurd hne hm
  · intro st ha
    have h0 : ¬(({ st with m_pool_state := thread_pool.state.STOPPED } :
        PoolSt).m_alive_flag = false) := by
      show ¬(st.m_alive_flag = false)
      simp [ha]
    simp only [destroy_threadpool]
    rw [if_neg h0]
    split_ifs with hm
    · exact ⟨fun _ => hm, fun _ => ⟨_, rfl⟩⟩
    · constructor
      · rintro ⟨msg, hmsg⟩
        exact hmsg.elim
      · intro hne
        exact absurd hne hm

/-- Witness for C7 at concrete inputs: growing the dead pool to two
workers with an always-succeeding spawn oracle raises nothing, and
destroying the consistent live pool raises nothing. -/
theorem fatal_iff_size_mismatch_witness :
    ((∃ msg, initialize_threadpool deadPool 0 2 exSpawn 0 = Except.error msg) ↔
      (init_spawn (init_pre deadPool) 0 2 exSpawn).m_is_joined.length ≠
        (init_spawn (init_pre deadPool) 0 2 exSpawn).m_main_threads.length) ∧
    ((∃ msg, destroy_threadpool exPool = Except.error msg) ↔
      exPool.m_is_joined.length ≠ exPool.m_main_threads.length) :=
  ⟨fatal_iff_size_mismatch.1 deadPool 0 2 exSpawn 0 (by decide) (by decide),
   fatal_iff_size_mismatch.2 exPool rfl⟩

/-- C8 counterexample: destroy on the never-started pool (not alive,
pool state NONINIT) returns zero but does not leave the pool state
unchanged: it stores STOPPED before checking the alive flag (line 368
precedes the alive check at line 395). -/
theorem destroy_not_alive_changes_state_cex :
    deadPool.m_alive_flag = false ∧
    destroy_threadpool deadPool
      = Except.ok (0, { deadPool with m_pool_state := thread_pool.state.STOPPED }) ∧
    ¬(({ deadPool with m_pool_state := thread_pool.state.STOPPED } :
        PoolSt).m_pool_state = deadPool.m_pool_state) :=
  ⟨rfl, rfl, by decide⟩

/-- C8 amended: destroy on a pool that is not alive returns zero and
leaves every field except the pool state unchanged, but it stores
PoolState STOPPED (and broadcasts the condition variable) before the
alive check, so PoolState is not preserved. -/
theorem destroy_not_alive_noop_except_state (st : PoolSt)
    (h : st.m_alive_flag = false) :
    destroy_threadpool st
      = Except.ok (0, { st with m_pool_state := thread_pool.state.STOPPED }) := by
  simp only [destroy_threadpool]
  rw [if_pos (show (({ st with m_pool_state := thread_pool.state.STOPPED } :
    PoolSt).m_alive_flag = false) from h)]

/-- Witness for the amended C8 at the concrete dead pool. -/
theorem destroy_not_alive_noop_witness :
    destroy_threadpool deadPool
      = Except.ok (0, { deadPool with m_pool_state := thread_pool.state.STOPPED }) :=
  destroy_not_alive_noop_except_state deadPool rfl

/-- C9: a thread absent from the registry that queries its id is assigned
the current map size and inserted; the first thread ever to query gets
index zero; and a worker entering through start_thread with a negative
index hint is likewise assigned the current map size. -/
theorem registry_assignment :
    (∀ (ids : List (ThreadId × Nat)) (tid : ThreadId),
       lookupId ids tid = none →
       GetThisThreadID ids tid = (ids.length, ids ++ [(tid, ids.length)])) ∧
    (∀ tid : ThreadId, GetThisThreadID [] tid = (0, [(tid, 0)])) ∧
    (∀ (ids : List (ThreadId × Nat)) (tid : ThreadId) (hint : Int),
       hint < 0 →
       start_thread_register ids tid hint = mapInsert ids tid ids.length) := by
  refine ⟨?_, ?_, ?_⟩
  · intro ids tid h
    simp [GetThisThreadID, h]
  · intro tid
    rfl
  · intro ids tid hint h
    simp only [start_thread_register]
    rw [if_pos h]

/-- Witness for C9 at concrete inputs. -/
theorem registry_assignment_witness :
    GetThisThreadID [(3, 0)] 7 = (1, [(3, 0), (7, 1)]) ∧
    GetThisThreadID [] 9 = (0, [(9, 0)]) ∧
    start_thread_register [(3, 0)] 7 (-1) = mapInsert [(3, 0)] 7 1 :=
  ⟨registry_assignment.1 [(3, 0)] 7 rfl,
   registry_assignment.2.1 9,
   registry_assignment.2.2 [(3, 0)] 7 (-1) (by decide)⟩

/-- C3 counterexample: destroy on a pool holding a pending
acknowledgement does not consume it: the acknowledge list m_stop_threads
still holds thread 7 after destroy returns (destroy clears the worker
lists wholesale and never drains m_stop_threads). -/
theorem destroy_leaves_acks_cex :
    ackPool.m_stop_threads = [7] ∧
    (destroy_threadpool ackPool).toOption.map (fun r => r.2.m_stop_threads)
      = some [7] :=
  ⟨rfl, by decide⟩

/-- C3 amended: when alive with non-zero size, stop_thread appends one
true token to the stop list (notifying one waiter), drains the
acknowledge list under the task mutex through drain_acks (erasing each
acknowledged id from the main-thread list and popping one joined entry
per acknowledgement), empties the acknowledge list, resyncs m_pool_size
to the main-thread count and returns it; pending acknowledgements are
consumed only by stop_thread calls — destroy never consumes them. -/
theorem stop_one_post_and_drain (st : PoolSt)
    (ha : st.m_alive_flag = true) (hs : st.m_pool_size ≠ 0) :
    (stop_thread st).2.m_is_stopped = st.m_is_stopped ++ [true] ∧
    (stop_thread st).2.m_stop_threads = [] ∧
    (stop_thread st).2.m_main_threads
      = (drain_acks st.m_stop_threads st.m_main_threads st.m_is_joined).1 ∧
    (stop_thread st).2.m_is_joined
      = (drain_acks st.m_stop_threads st.m_main_threads st.m_is_joined).2 ∧
    (stop_thread st).2.m_pool_size = (stop_thread st).2.m_main_threads.length ∧
    (stop_thread st).1 = (stop_thread st).2.m_main_threads.length ∧
    (∀ (st2 : PoolSt) (r : Nat × PoolSt),
       destroy_threadpool st2 = Except.ok r →
       r.2.m_stop_threads = st2.m_stop_threads) := by
  have hcond : ¬(st.m_alive_flag = false ∨ st.m_pool_size = 0) := by
    simp [ha, hs]
  refine ⟨?_, ?_, ?_, ?_, ?_, ?_, ?_⟩
  · simp only [stop_thread]; rw [if_neg hcond]
  · simp only [stop_thread]; rw [if_neg hcond]
  · simp only [stop_thread]; rw [if_neg hcond]
  · simp only [stop_thread]; rw [if_neg hcond]
  · simp only [stop_thread]; rw [if_neg hcond]
  · simp only [stop_thread]; rw [if_neg hcond]
  · intro st2 r h
    simp only [destroy_threadpool] at h
    split_ifs at h with h1 h2
    · rw [Except.ok.injEq] at h
      subst h
      rfl
    · rw [Except.ok.injEq] at h
      subst h
      rfl

/-- Witness for the amended C3 at the concrete live pool: one token
posted, nothing drained (no pending acknowledgement), size resynced. -/
theorem stop_one_post_and_drain_witness :
    (stop_thread exPool).2.m_is_stopped = [true] ∧
    (stop_thread exPool).2.m_stop_threads = [] ∧
    (stop_thread exPool).1 = (stop_thread exPool).2.m_main_threads.length :=
  ⟨(stop_one_post_and_drain exPool rfl (by decide)).1,
   (stop_one_post_and_drain exPool rfl (by decide)).2.1,
   (stop_one_post_and_drain exPool rfl (by decide)).2.2.2.2.2.1⟩

/-- C2 refuted: along every interleaving of master stop_thread calls and
worker-loop steps (no concurrent initialize, no destroy) that starts from
a STARTED pool with no pending acknowledgements and a consistent size
field, m_pool_size never changes: the code never stores PARTIAL, so no
stop token posted by stop_thread is ever acknowledged and the drain of
stop_thread never removes a worker.  In particular k calls of stop_one
never decrease pool_size by k for any k at least one. -/
theorem stop_one_cannot_shrink (s0 s : SysSt)
    (h1 : s0.pool.m_pool_state = thread_pool.state.STARTED)
    (h2 : s0.pool.m_stop_threads = [])
    (h3 : s0.pool.m_pool_size = s0.pool.m_main_threads.length)
    (htr : Relation.ReflTransGen SysStep s0 s) :
    s.pool.m_pool_size = s0.pool.m_pool_size := by
  have main : StartedInv s ∧ s.pool.m_pool_size = s0.pool.m_pool_size := by
    induction htr with
    | refl => exact ⟨⟨h1, h2, h3⟩, rfl⟩
    | tail _ hstep ih =>
        obtain ⟨hI, hsz⟩ := ih
        obtain ⟨hI2, hsz2⟩ := sysStep_preserves _ _ hstep hI
        exact ⟨hI2, by rw [hsz2, hsz]⟩
  exact main.2

/-- Witness for C2 at a concrete input: one stop_thread call on the live
three-worker STARTED pool leaves m_pool_size at three. -/
theorem stop_one_cannot_shrink_witness :
    (⟨(stop_thread exSys.pool).2, exSys.workers⟩ : SysSt).pool.m_pool_size
      = exSys.pool.m_pool_size :=
  stop_one_cannot_shrink exSys ⟨(stop_thread exSys.pool).2, exSys.workers⟩
    rfl rfl rfl (Relation.ReflTransGen.single (SysStep.master_stop exSys))

end PTL
